import Mathlib

/-!
Shallow embedding of `windshield-rs` (src/lib.rs, src/main.rs): a minimal
windowed-rendering bootstrap around a GPU surface.  GPU/windowing library
calls are modelled as an explicit trace of commands (`GpuCmd`); external
inputs (window inner size, adapter-chosen surface format, the outcome of
acquiring the next surface texture) are parameters.  Machine `u32` values
are modelled as `Nat`: the code only copies them and compares them to zero,
so no overflow can occur.  The `f64` clear-color literals are modelled as
the exact rationals they are written as; no arithmetic is performed on them.
-/

namespace Windshield

/-- winit's `PhysicalSize<u32>`. -/
structure PhysicalSize where
  width : Nat
  height : Nat
deriving DecidableEq, Repr

/-- wgpu `TextureUsages` (only `RENDER_ATTACHMENT` is used by the code). -/
inductive TextureUsages where
  | RENDER_ATTACHMENT
  | COPY_SRC
  | COPY_DST
  | TEXTURE_BINDING
deriving DecidableEq, Repr

/-- wgpu `TextureFormat`, abstract: the code takes the first format the
adapter reports as supported and never inspects it. -/
abbrev TextureFormat := Nat

/-- wgpu `PresentMode`. -/
inductive PresentMode where
  | Fifo
  | Immediate
  | Mailbox
deriving DecidableEq, Repr

/-- wgpu `CompositeAlphaMode`. -/
inductive CompositeAlphaMode where
  | Auto
  | Opaque
  | PreMultiplied
  | PostMultiplied
  | Inherit
deriving DecidableEq, Repr

/-- wgpu `SurfaceConfiguration` as built and mutated by the code. -/
structure SurfaceConfiguration where
  usage : TextureUsages
  format : TextureFormat
  width : Nat
  height : Nat
  present_mode : PresentMode
  alpha_mode : CompositeAlphaMode
deriving DecidableEq, Repr

/-- wgpu `SurfaceError` (`get_current_texture` failure kinds). -/
inductive SurfaceError where
  | Timeout
  | Outdated
  | Lost
  | OutOfMemory
deriving DecidableEq, Repr

/-- wgpu `Color`; the `f64` fields are the exact rational literals of the
source, on which no arithmetic is ever performed. -/
structure Color where
  r : ℚ
  g : ℚ
  b : ℚ
  a : ℚ
deriving DecidableEq, Repr

/-- wgpu `LoadOp<Color>`. -/
inductive LoadOp where
  | Clear (color : Color)
  | Load
deriving DecidableEq, Repr

/-- wgpu `Operations<Color>`. -/
structure Operations where
  load : LoadOp
  store : Bool
deriving DecidableEq, Repr

/-- wgpu `RenderPassColorAttachment`: the view and resolve target are
texture-view handles, modelled as identifiers. -/
structure RenderPassColorAttachment where
  view : Nat
  resolve_target : Option Nat
  ops : Operations
deriving DecidableEq, Repr

/-- wgpu `RenderPassDescriptor` (depth/stencil attachment is either absent
or some opaque attachment handle). -/
structure RenderPassDescriptor where
  label : Option String
  color_attachments : List (Option RenderPassColorAttachment)
  depth_stencil_attachment : Option Nat
deriving DecidableEq, Repr

/-- The externally observable GPU/surface calls the code makes, in order. -/
inductive GpuCmd where
  | configure (surface : Nat) (device : Nat) (config : SurfaceConfiguration)
  | getCurrentTexture (surface : Nat)
  | beginRenderPass (desc : RenderPassDescriptor)
  | submit (queue : Nat)
  | present
deriving DecidableEq, Repr

/-- The surface texture handed back by a successful `get_current_texture`;
its `texture` field is an identifier from which the view is created. -/
structure SurfaceTexture where
  texture : Nat
deriving DecidableEq, Repr

/-- winit `Window`: only its id and current inner size are consulted. -/
structure Window where
  id : Nat
  innerSize : PhysicalSize
deriving DecidableEq, Repr

/-- The `State` struct of src/lib.rs: surface, device and queue are opaque
handles modelled as identifiers. -/
structure State where
  surface : Nat
  device : Nat
  queue : Nat
  config : SurfaceConfiguration
  size : PhysicalSize
deriving DecidableEq, Repr

/-- `State::new` of src/lib.rs, lines 25-76.  The window's inner size and
the adapter's first supported surface format are external inputs; the
surface, device and queue handles the libraries return are parameters.
Emits the initial `surface.configure` call. -/
def State.new (window : Window) (format : TextureFormat)
    (surfaceId deviceId queueId : Nat) : State × List GpuCmd :=
  let size := window.innerSize
  let config : SurfaceConfiguration :=
    { usage := .RENDER_ATTACHMENT
      format := format
      width := size.width
      height := size.height
      present_mode := .Fifo
      alpha_mode := .Auto }
  ({ surface := surfaceId
     device := deviceId
     queue := queueId
     config := config
     size := size },
   [.configure surfaceId deviceId config])

/-- `State::resize` of src/lib.rs, lines 78-85: if both dimensions are
strictly positive, store the new size, update the configuration's width and
height, and reconfigure the surface; otherwise do nothing. -/
def State.resize (s : State) (new_size : PhysicalSize) : State × List GpuCmd :=
  if 0 < new_size.width ∧ 0 < new_size.height then
    let s' : State :=
      { s with
        size := new_size
        config := { s.config with width := new_size.width, height := new_size.height } }
    (s', [.configure s'.surface s'.device s'.config])
  else
    (s, [])

/-- winit `ElementState`. -/
inductive ElementState where
  | Pressed
  | Released
deriving DecidableEq, Repr

/-- winit `VirtualKeyCode` (only Escape is distinguished by the code). -/
inductive VirtualKeyCode where
  | Escape
  | OtherKey (code : Nat)
deriving DecidableEq, Repr

/-- winit `WindowEvent`, restricted to the variants the code matches on. -/
inductive WindowEvent where
  | CloseRequested
  | KeyboardInput (state : ElementState) (virtual_keycode : Option VirtualKeyCode)
  | Resized (size : PhysicalSize)
  | ScaleFactorChanged (new_inner_size : PhysicalSize)
  | OtherWindowEvent
deriving DecidableEq, Repr

/-- `State::input` of src/lib.rs, lines 87-89: always returns false and
leaves the state untouched. -/
def State.input (s : State) (_event : WindowEvent) : State × Bool :=
  (s, false)

/-- `State::update` of src/lib.rs, lines 91-93: a no-op. -/
def State.update (s : State) : State :=
  s

/-- `State::render` of src/lib.rs, lines 95-130.  The outcome of
`surface.get_current_texture()` is an external input.  On failure the error
is returned via `?`.  On success a view is created from the texture, one
render pass clearing it to (0.1, 0.2, 0.3, 1.0) with store enabled and no
depth/stencil attachment is recorded, the commands are submitted and the
texture is presented. -/
def State.render (s : State) (acquired : Except SurfaceError SurfaceTexture) :
    State × Except SurfaceError Unit × List GpuCmd :=
  match acquired with
  | .error e => (s, .error e, [.getCurrentTexture s.surface])
  | .ok output =>
    let view := output.texture
    (s, .ok (),
      [.getCurrentTexture s.surface,
       .beginRenderPass
         { label := some "Render Pass"
           color_attachments :=
             [some
               { view := view
                 resolve_target := none
                 ops :=
                   { load := .Clear { r := 1/10, g := 2/10, b := 3/10, a := 1 }
                     store := true } }]
           depth_stencil_attachment := none },
       .submit s.queue,
       .present])

/-- winit `ControlFlow`, restricted to the values the code uses. -/
inductive ControlFlow where
  | Poll
  | Exit
deriving DecidableEq, Repr

instance {ε α : Type} [DecidableEq ε] [DecidableEq α] : DecidableEq (Except ε α) :=
  fun a b =>
    match a, b with
    | .error x, .error y =>
      if h : x = y then .isTrue (congrArg Except.error h)
      else .isFalse fun hc => h (Except.error.inj hc)
    | .ok x, .ok y =>
      if h : x = y then .isTrue (congrArg Except.ok h)
      else .isFalse fun hc => h (Except.ok.inj hc)
    | .error _, .ok _ => .isFalse fun hc => Except.noConfusion hc
    | .ok _, .error _ => .isFalse fun hc => Except.noConfusion hc

/-- One platform event delivered to the closure in `run` (src/lib.rs,
lines 139-185).  A redraw event carries the texture-acquisition outcome the
render call will observe. -/
inductive Event where
  | WindowEvent (window_id : Nat) (event : WindowEvent)
  | RedrawRequested (window_id : Nat) (acquired : Except SurfaceError SurfaceTexture)
  | MainEventsCleared
  | OtherEvent
deriving DecidableEq, Repr

/-- The mutable environment of the closure in `run`: the render-context
state and the loop control-flow cell. -/
structure LoopState where
  state : State
  control_flow : ControlFlow
deriving DecidableEq, Repr

/-- The body of the closure passed to `event_loop.run` (src/lib.rs, lines
139-185), as a function of the current loop state and one event, returning
the updated loop state and the GPU calls made while handling the event. -/
def runStep (windowId : Nat) (ls : LoopState) (ev : Event) : LoopState × List GpuCmd :=
  match ev with
  | .WindowEvent wid event =>
    if wid = windowId then
      match ls.state.input event with
      | (s1, true) => ({ ls with state := s1 }, [])
      | (s1, false) =>
        match event with
        | .CloseRequested =>
          ({ ls with state := s1, control_flow := .Exit }, [])
        | .KeyboardInput .Pressed (some .Escape) =>
          ({ ls with state := s1, control_flow := .Exit }, [])
        | .Resized physical_size =>
          let (s2, cmds) := s1.resize physical_size
          ({ ls with state := s2 }, cmds)
        | .ScaleFactorChanged new_inner_size =>
          let (s2, cmds) := s1.resize new_inner_size
          ({ ls with state := s2 }, cmds)
        | _ => ({ ls with state := s1 }, [])
    else
      (ls, [])
  | .RedrawRequested wid acquired =>
    if wid = windowId then
      let s1 := ls.state.update
      match s1.render acquired with
      | (s2, .ok _, cmds) => ({ ls with state := s2 }, cmds)
      | (s2, .error .Lost, cmds) =>
        let (s3, cmds2) := s2.resize s2.size
        ({ ls with state := s3 }, cmds ++ cmds2)
      | (s2, .error .OutOfMemory, cmds) =>
        ({ ls with state := s2, control_flow := .Exit }, cmds)
      | (s2, .error _, cmds) => ({ ls with state := s2 }, cmds)
    else
      (ls, [])
  | .MainEventsCleared => (ls, [])
  | .OtherEvent => (ls, [])

/-- The dispatch loop of `run`: events are handled in order, and the loop
terminates once the control-flow cell has been set to `Exit` (winit then
stops dispatching; no further closure invocations occur). -/
def runLoop (windowId : Nat) : LoopState → List Event → LoopState × List GpuCmd
  | ls, [] => (ls, [])
  | ls, ev :: rest =>
    match ls.control_flow with
    | .Exit => (ls, [])
    | .Poll =>
      let (ls1, cmds) := runStep windowId ls ev
      let (ls2, cmds2) := runLoop windowId ls1 rest
      (ls2, cmds ++ cmds2)

/-- Number of `surface.configure` calls in a command trace. -/
def configureCount (cmds : List GpuCmd) : Nat :=
  cmds.countP fun c =>
    match c with
    | .configure _ _ _ => true
    | _ => false

/-- Number of render attempts (`get_current_texture` calls) in a trace. -/
def renderAttemptCount (cmds : List GpuCmd) : Nat :=
  cmds.countP fun c =>
    match c with
    | .getCurrentTexture _ => true
    | _ => false

/-- The stored size mirrors the configuration dimensions. -/
def sizeMirrorsConfig (s : State) : Prop :=
  s.size.width = s.config.width ∧ s.size.height = s.config.height

instance (s : State) : Decidable (sizeMirrorsConfig s) := by
  unfold sizeMirrorsConfig; infer_instance

/-- A concrete ready state with an 800×600 configuration, as produced by
`State::new` on a window whose inner size is 800×600. -/
def state800 : State :=
  (State.new { id := 0, innerSize := { width := 800, height := 600 } } 7 1 2 3).1

/-- A concrete state produced by `State::new` on a window whose inner size
is 0×0 (e.g. a window created minimized). -/
def stateZero : State :=
  (State.new { id := 0, innerSize := { width := 0, height := 0 } } 7 1 2 3).1

/-- C1: for every resize request with strictly positive width and height,
the stored configuration's width and height equal the requested values, the
stored size equals the requested size, and `surface.configure` is called
with the updated configuration. -/
theorem resize_positive_updates_and_reconfigures (s : State) (sz : PhysicalSize)
    (hw : 0 < sz.width) (hh : 0 < sz.height) :
    (s.resize sz).1.config.width = sz.width ∧
    (s.resize sz).1.config.height = sz.height ∧
    (s.resize sz).1.size = sz ∧
    (s.resize sz).2 =
      [.configure (s.resize sz).1.surface (s.resize sz).1.device (s.resize sz).1.config] := by
  simp [State.resize, hw, hh]

/-- Witness for C1 at the concrete state `state800` and request 1024×768. -/
theorem resize_positive_updates_and_reconfigures_witness :
    (state800.resize { width := 1024, height := 768 }).1.config.width = 1024 ∧
    (state800.resize { width := 1024, height := 768 }).1.config.height = 768 ∧
    (state800.resize { width := 1024, height := 768 }).1.size = { width := 1024, height := 768 } ∧
    (state800.resize { width := 1024, height := 768 }).2 =
      [.configure (state800.resize { width := 1024, height := 768 }).1.surface
        (state800.resize { width := 1024, height := 768 }).1.device
        (state800.resize { width := 1024, height := 768 }).1.config] :=
  resize_positive_updates_and_reconfigures state800 { width := 1024, height := 768 }
    (by decide) (by decide)

/-- C2: a resize request with a zero width or zero height leaves the state
(configuration and stored size) unchanged and emits no surface call. -/
theorem resize_zero_noop (s : State) (sz : PhysicalSize)
    (h : sz.width = 0 ∨ sz.height = 0) :
    s.resize sz = (s, []) := by
  unfold State.resize
  rcases h with h | h <;> simp [h]

/-- Witness for C2 at the concrete state `state800` and request 0×500. -/
theorem resize_zero_noop_witness :
    state800.resize { width := 0, height := 500 } = (state800, []) :=
  resize_zero_noop state800 { width := 0, height := 500 } (Or.inl rfl)

/-- C6: starting from the 800×600 configuration produced by `State::new`,
resize(0,0) leaves it at 800×600, then resize(1024,768) makes it 1024×768,
then resize(0,500) leaves it at 1024×768. -/
theorem resize_scenario_800_600 :
    (state800.config.width = 800 ∧ state800.config.height = 600) ∧
    ((state800.resize { width := 0, height := 0 }).1.config.width = 800 ∧
      (state800.resize { width := 0, height := 0 }).1.config.height = 600) ∧
    (((state800.resize { width := 0, height := 0 }).1.resize
        { width := 1024, height := 768 }).1.config.width = 1024 ∧
      ((state800.resize { width := 0, height := 0 }).1.resize
        { width := 1024, height := 768 }).1.config.height = 768) ∧
    ((((state800.resize { width := 0, height := 0 }).1.resize
        { width := 1024, height := 768 }).1.resize
          { width := 0, height := 500 }).1.config.width = 1024 ∧
      (((state800.resize { width := 0, height := 0 }).1.resize
        { width := 1024, height := 768 }).1.resize
          { width := 0, height := 500 }).1.config.height = 768) := by
  decide

/-- C7: for strictly positive sizes s1 and s2, resize(s1) followed by
resize(s2) leaves the configuration exactly as resize(s2) alone would: the
last valid call wins and no stale intermediate state remains. -/
theorem resize_last_valid_wins (s : State) (s1 s2 : PhysicalSize)
    (h1w : 0 < s1.width) (h1h : 0 < s1.height)
    (h2w : 0 < s2.width) (h2h : 0 < s2.height) :
    ((s.resize s1).1.resize s2).1.config = (s.resize s2).1.config := by
  simp [State.resize, h1w, h1h, h2w, h2h]

/-- Witness for C7 at `state800` with sizes 300×200 then 1024×768. -/
theorem resize_last_valid_wins_witness :
    ((state800.resize { width := 300, height := 200 }).1.resize
      { width := 1024, height := 768 }).1.config =
    (state800.resize { width := 1024, height := 768 }).1.config :=
  resize_last_valid_wins state800 { width := 300, height := 200 }
    { width := 1024, height := 768 } (by decide) (by decide) (by decide) (by decide)

/-- C10: for every input size, resize changes at most the stored size and
the configuration's width/height: usage, format, present mode, alpha mode
and the surface, device and queue handles are untouched. -/
theorem resize_preserves_other_fields (s : State) (sz : PhysicalSize) :
    (s.resize sz).1.config.usage = s.config.usage ∧
    (s.resize sz).1.config.format = s.config.format ∧
    (s.resize sz).1.config.present_mode = s.config.present_mode ∧
    (s.resize sz).1.config.alpha_mode = s.config.alpha_mode ∧
    (s.resize sz).1.surface = s.surface ∧
    (s.resize sz).1.device = s.device ∧
    (s.resize sz).1.queue = s.queue := by
  unfold State.resize
  split <;> simp

/-- C3 counterexample: `State::new` copies the window's inner size into the
configuration without any positivity guard, so for a window whose inner
size is 0×0 the produced configuration has width 0 — the claimed invariant
does not hold for every window inner size. -/
theorem config_positive_counterexample : stateZero.config.width = 0 := by
  decide

/-- C3 (amended): if the window's inner size is strictly positive then the
configuration produced by `new` is strictly positive, and positivity is
preserved by every resize call, including ones with a zero dimension. -/
theorem config_positive_invariant :
    (∀ (w : Window) (fmt : TextureFormat) (sid did qid : Nat),
      0 < w.innerSize.width → 0 < w.innerSize.height →
      0 < (State.new w fmt sid did qid).1.config.width ∧
        0 < (State.new w fmt sid did qid).1.config.height) ∧
    (∀ (s : State) (sz : PhysicalSize),
      0 < s.config.width → 0 < s.config.height →
      0 < (s.resize sz).1.config.width ∧ 0 < (s.resize sz).1.config.height) := by
  constructor
  · intro w fmt sid did qid hw hh
    exact ⟨hw, hh⟩
  · intro s sz hw hh
    unfold State.resize
    split
    · next hpos => exact ⟨hpos.1, hpos.2⟩
    · exact ⟨hw, hh⟩

/-- Witness for C3 (amended), applied at a 640×480 window and at a resize
of `state800` by 0×0. -/
theorem config_positive_invariant_witness :
    (0 < (State.new { id := 0, innerSize := { width := 640, height := 480 } }
        7 1 2 3).1.config.width ∧
      0 < (State.new { id := 0, innerSize := { width := 640, height := 480 } }
        7 1 2 3).1.config.height) ∧
    (0 < (state800.resize { width := 0, height := 0 }).1.config.width ∧
      0 < (state800.resize { width := 0, height := 0 }).1.config.height) :=
  ⟨config_positive_invariant.1 { id := 0, innerSize := { width := 640, height := 480 } }
      7 1 2 3 (by decide) (by decide),
    config_positive_invariant.2 state800 { width := 0, height := 0 }
      (by decide) (by decide)⟩

/-- C4 counterexample: the claim quantifies over every Render Context
state, but for a state whose stored size is 0×0 (reachable: `State::new` on
a window created with a 0×0 inner size) the `Err(Lost)` branch calls
`resize(self.size)` with a zero size, which is ignored — zero configure
calls are made, not exactly one. -/
theorem lost_reconfigure_counterexample :
    configureCount ((runStep 0 { state := stateZero, control_flow := .Poll }
      (.RedrawRequested 0 (.error .Lost))).2) = 0 := by
  decide

/-- C4 (amended): for every Render Context state whose stored size is
strictly positive, after a render call fails with `Lost` the driver makes
exactly one `surface.configure` call, using the last known stored size, and
it is emitted while handling this very event, hence before the next render
attempt. -/
theorem lost_triggers_one_reconfigure (wid : Nat) (ls : LoopState)
    (hw : 0 < ls.state.size.width) (hh : 0 < ls.state.size.height) :
    (runStep wid ls (.RedrawRequested wid (.error .Lost))).2 =
      [.getCurrentTexture ls.state.surface,
       .configure ls.state.surface ls.state.device
         { ls.state.config with
           width := ls.state.size.width, height := ls.state.size.height }] ∧
    configureCount ((runStep wid ls (.RedrawRequested wid (.error .Lost))).2) = 1 := by
  have hstep : runStep wid ls (.RedrawRequested wid (.error .Lost)) =
      ({ ls with state :=
          { ls.state with
            size := ls.state.size
            config := { ls.state.config with
              width := ls.state.size.width, height := ls.state.size.height } } },
        [.getCurrentTexture ls.state.surface,
         .configure ls.state.surface ls.state.device
           { ls.state.config with
             width := ls.state.size.width, height := ls.state.size.height }]) := by
    simp [runStep, State.update, State.render, State.resize, hw, hh]
  rw [hstep]
  exact ⟨rfl, by simp [configureCount]⟩

/-- Witness for C4 (amended) at the concrete state `state800`. -/
theorem lost_triggers_one_reconfigure_witness :
    (runStep 0 { state := state800, control_flow := .Poll }
        (.RedrawRequested 0 (.error .Lost))).2 =
      [.getCurrentTexture state800.surface,
       .configure state800.surface state800.device
         { state800.config with
           width := state800.size.width, height := state800.size.height }] ∧
    configureCount ((runStep 0 { state := state800, control_flow := .Poll }
        (.RedrawRequested 0 (.error .Lost))).2) = 1 :=
  lost_triggers_one_reconfigure 0 { state := state800, control_flow := .Poll }
    (by decide) (by decide)

/-- C5: render propagates the acquisition error unchanged when acquiring
the surface texture fails, and on success records exactly one render pass
that clears the acquired view to (0.1, 0.2, 0.3, 1.0) with store enabled
and no depth/stencil attachment, submits, presents, and returns success. -/
theorem render_propagates_error_and_clears :
    (∀ (s : State) (e : SurfaceError),
      (s.render (.error e)).2.1 = .error e) ∧
    (∀ (s : State) (t : SurfaceTexture),
      (s.render (.ok t)).2.1 = .ok () ∧
      (s.render (.ok t)).2.2 =
        [.getCurrentTexture s.surface,
         .beginRenderPass
           { label := some "Render Pass"
             color_attachments :=
               [some
                 { view := t.texture
                   resolve_target := none
                   ops :=
                     { load := .Clear { r := 1/10, g := 2/10, b := 3/10, a := 1 }
                       store := true } }]
             depth_stencil_attachment := none },
         .submit s.queue,
         .present]) :=
  ⟨fun _ _ => rfl, fun _ _ => ⟨rfl, rfl⟩⟩

/-- C8: after a render call fails with `OutOfMemory`, the driver sets the
loop-termination signal, and however many further events are queued, the
loop handles none of them — in particular no further render attempt (no
`get_current_texture` call) ever occurs. -/
theorem oom_sets_exit_and_stops_rendering (wid : Nat) (ls : LoopState)
    (events : List Event) :
    (runStep wid ls (.RedrawRequested wid (.error .OutOfMemory))).1.control_flow = .Exit ∧
    renderAttemptCount
      ((runLoop wid (runStep wid ls (.RedrawRequested wid (.error .OutOfMemory))).1
        events).2) = 0 := by
  have hexit :
      (runStep wid ls (.RedrawRequested wid (.error .OutOfMemory))).1.control_flow = .Exit := by
    simp [runStep, State.update, State.render]
  refine ⟨hexit, ?_⟩
  cases events with
  | nil => simp [runLoop, renderAttemptCount]
  | cons e rest => simp [runLoop, hexit, renderAttemptCount]

/-- C9: the stored size mirrors the configuration dimensions after `new`
for every window inner size, and the mirror is preserved by every resize,
input, update and render call. -/
theorem size_mirrors_config_invariant :
    (∀ (w : Window) (fmt : TextureFormat) (sid did qid : Nat),
      sizeMirrorsConfig (State.new w fmt sid did qid).1) ∧
    (∀ (s : State) (sz : PhysicalSize),
      sizeMirrorsConfig s → sizeMirrorsConfig (s.resize sz).1) ∧
    (∀ (s : State) (e : WindowEvent),
      sizeMirrorsConfig s → sizeMirrorsConfig (s.input e).1) ∧
    (∀ (s : State), sizeMirrorsConfig s → sizeMirrorsConfig s.update) ∧
    (∀ (s : State) (acq : Except SurfaceError SurfaceTexture),
      sizeMirrorsConfig s → sizeMirrorsConfig (s.render acq).1) := by
  refine ⟨?_, ?_, ?_, ?_, ?_⟩
  · intro w fmt sid did qid
    exact ⟨rfl, rfl⟩
  · intro s sz h
    unfold State.resize
    split
    · exact ⟨rfl, rfl⟩
    · exact h
  · intro s e h
    exact h
  · intro s h
    exact h
  · intro s acq h
    cases acq <;> exact h

/-- Witness for C9: the mirror holds for `state800` and survives a resize,
an input event, an update, and a failing render. -/
theorem size_mirrors_config_invariant_witness :
    sizeMirrorsConfig
      (((((state800.resize { width := 33, height := 44 }).1.input
          .CloseRequested).1.update).render (.error .Timeout)).1) :=
  size_mirrors_config_invariant.2.2.2.2 _ (.error .Timeout)
    (size_mirrors_config_invariant.2.2.2.1 _
      (size_mirrors_config_invariant.2.2.1 _ .CloseRequested
        (size_mirrors_config_invariant.2.1 state800 { width := 33, height := 44 }
          (by decide))))

end Windshield
